import Mathlib

/-!
Verification of the Quadify remote-config launcher
(`scripts/remote_config_wrapper.c`).

The program validates that exactly one user argument was supplied
(`argc == 2`), then replaces its own image via
`execl("/bin/bash", "bash", SCRIPT, argv[1], NULL)`; on a wrong argument
count it prints a usage line to stderr and returns 1, and if `execl`
returns it prints `perror("execl failed")` and returns 1.

The embedding models one run of `main` as a pure function of

* `argv` — the argument list, element 0 being the program name, so that
  `argc = argv.length`;
* `procEnv` — the process environment variables (an association list),
  which the program never reads or writes and which `execl` hands to the
  replacement image unmodified;
* `sys` — the operating system's answer to an `execl` attempt: success
  (the image is replaced, the call never returns) or failure with an
  `errno` cause string.

The result records the outcome (own exit status, or replacement by a
given exec call), every line written to stderr, every exec call
attempted, the environment handed to a successful replacement, the
environment at the end of the launcher's own code, and the files written
(the program performs no file writes).
-/

namespace RemoteConfigWrapper

/-- First argument of the `execl` call: the interpreter binary. -/
def interpreterPath : String := "/bin/bash"

/-- Hard-coded path of the external script, the second element of the
exec argument vector. -/
def scriptPath : String := "/home/volumio/Quadify/scripts/install_remote_config.sh"

/-- One attempted `execl` call: the binary path and the argument vector
of the new image (`bash`, the script path, the forwarded argument); the
terminating null pointer of the C call is not an element. -/
structure ExecCall where
  path : String
  argvec : List String
  deriving DecidableEq, Repr

/-- The operating system's response to an `execl` attempt: on success the
process image is replaced and the call never returns; on failure the call
returns and `errno` describes the cause (rendered by `perror`). -/
inductive ExecResult
  | success
  | failure (cause : String)
  deriving DecidableEq, Repr

/-- How the launcher process ends: its own `return` with a status, or its
image replaced by a successful `execl`. -/
inductive Outcome
  | exited (status : Int)
  | replaced (call : ExecCall)
  deriving DecidableEq, Repr

/-- Everything observable about one run of `main`. -/
structure RunResult where
  outcome : Outcome
  stderrLines : List String
  execAttempts : List ExecCall
  envPassedToExec : Option (List (String × String))
  finalEnv : List (String × String)
  filesWritten : List String
  deriving DecidableEq, Repr

/-- Rendering of a `%s` conversion by glibc's `fprintf` (the C library of
the target platform, Raspberry Pi OS bookworm): a non-null pointer prints
the string it points to, and a null pointer prints `(null)`.  Since the C
standard guarantees `argv[argc] == NULL`, the pointer `argv[0]` is null
exactly when `argc = 0`, which the embedding writes as `argv.head? = none`. -/
def fmtStringArg : Option String → String
  | some s => s
  | none => "(null)"

/-- The line `fprintf(stderr, "Usage: %s <remote_config_folder>\n", argv[0])`
writes. -/
def usageMessage (argv : List String) : String :=
  "Usage: " ++ fmtStringArg argv.head? ++ " <remote_config_folder>\n"

/-- The line `perror("execl failed")` writes to stderr: the supplied text,
a colon and space, the `errno` cause, and a newline. -/
def perrorLine (cause : String) : String :=
  "execl failed: " ++ cause ++ "\n"

/-- The exec call `main` issues for the forwarded argument `a`:
`execl("/bin/bash", "bash", SCRIPT, a, NULL)`. -/
def theExecCall (a : String) : ExecCall :=
  { path := interpreterPath, argvec := ["bash", scriptPath, a] }

/-- Shallow embedding of `main` from `scripts/remote_config_wrapper.c`.
If `argc != 2` it writes the usage line and returns 1 without attempting
any exec; otherwise it attempts `theExecCall argv[1]`, and on success is
replaced (handing over the unmodified environment), while on failure it
writes the `perror` line and returns 1. -/
def launcherMain (argv : List String) (procEnv : List (String × String))
    (sys : ExecCall → ExecResult) : RunResult :=
  if argv.length ≠ 2 then
    { outcome := Outcome.exited 1
      stderrLines := [usageMessage argv]
      execAttempts := []
      envPassedToExec := none
      finalEnv := procEnv
      filesWritten := [] }
  else
    let call := theExecCall (argv.getD 1 "")
    match sys call with
    | ExecResult.success =>
        { outcome := Outcome.replaced call
          stderrLines := []
          execAttempts := [call]
          envPassedToExec := some procEnv
          finalEnv := procEnv
          filesWritten := [] }
    | ExecResult.failure cause =>
        { outcome := Outcome.exited 1
          stderrLines := [perrorLine cause]
          execAttempts := [call]
          envPassedToExec := none
          finalEnv := procEnv
          filesWritten := [] }

/-- The exit status the launcher itself returns; `none` when its image was
replaced and its own code never returned. -/
def exitStatus (r : RunResult) : Option Int :=
  match r.outcome with
  | Outcome.exited s => some s
  | Outcome.replaced _ => none

/-- An exec call with the final element of its argument vector removed:
two calls agree under this map exactly when they differ at most in the
trailing forwarded argument. -/
def stripLastArg (c : ExecCall) : ExecCall :=
  { path := c.path, argvec := c.argvec.dropLast }

/-- Definitional reduction of `launcherMain` on a two-element argument
list (program name plus one user argument): the argument check passes and
the run is decided by the operating system's answer to the exec call. -/
theorem launcherMain_one_arg (p A : String) (procEnv : List (String × String))
    (sys : ExecCall → ExecResult) :
    launcherMain [p, A] procEnv sys
      = match sys (theExecCall A) with
        | ExecResult.success =>
            { outcome := Outcome.replaced (theExecCall A)
              stderrLines := []
              execAttempts := [theExecCall A]
              envPassedToExec := some procEnv
              finalEnv := procEnv
              filesWritten := [] }
        | ExecResult.failure cause =>
            { outcome := Outcome.exited 1
              stderrLines := [perrorLine cause]
              execAttempts := [theExecCall A]
              envPassedToExec := none
              finalEnv := procEnv
              filesWritten := [] } := rfl

/-- C1: whenever the argument count is not exactly 2 (program name plus
one user argument), the launcher writes the usage line naming the invoking
program to stderr, returns status 1, and never attempts the exec, so the
external script is never started. -/
theorem c1_usage_error (argv : List String) (procEnv : List (String × String))
    (sys : ExecCall → ExecResult) (h : argv.length ≠ 2) :
    (launcherMain argv procEnv sys).outcome = Outcome.exited 1 ∧
    (launcherMain argv procEnv sys).stderrLines
      = ["Usage: " ++ fmtStringArg argv.head? ++ " <remote_config_folder>\n"] ∧
    (launcherMain argv procEnv sys).execAttempts = [] ∧
    (∀ p, argv.head? = some p →
      (launcherMain argv procEnv sys).stderrLines
        = ["Usage: " ++ p ++ " <remote_config_folder>\n"]) := by
  refine ⟨?_, ?_, ?_, ?_⟩ <;> simp [launcherMain, usageMessage, h]
  intro p hp
  simp [hp, fmtStringArg]

theorem c1_usage_error_witness :
    (launcherMain ["wrapper"] [] (fun _ => ExecResult.success)).stderrLines
      = ["Usage: wrapper <remote_config_folder>\n"] :=
  (c1_usage_error ["wrapper"] [] (fun _ => ExecResult.success)
    (by decide)).2.2.2 "wrapper" rfl

/-- C2: with exactly one user argument `A`, whatever its content, the
launcher attempts process replacement with `/bin/bash` and the argument
vector exactly `["bash", script path, A]`; `A` is the final vector element
verbatim, with no transformation. -/
theorem c2_exec_vector (p A : String) (procEnv : List (String × String))
    (sys : ExecCall → ExecResult) :
    (launcherMain [p, A] procEnv sys).execAttempts
      = [{ path := "/bin/bash",
           argvec := ["bash",
             "/home/volumio/Quadify/scripts/install_remote_config.sh", A] }] := by
  rw [launcherMain_one_arg]
  cases sys (theExecCall A) <;>
    simp [theExecCall, interpreterPath, scriptPath]

/-- C3: when the exec attempt fails with a given `errno` cause, the
launcher writes the single `perror` diagnostic naming the failed operation
and the cause, returns status 1, and its image is never replaced, so no
part of the script runs. -/
theorem c3_exec_failure (p A cause : String)
    (procEnv : List (String × String)) (sys : ExecCall → ExecResult)
    (h : sys (theExecCall A) = ExecResult.failure cause) :
    (launcherMain [p, A] procEnv sys).outcome = Outcome.exited 1 ∧
    (launcherMain [p, A] procEnv sys).stderrLines
      = ["execl failed: " ++ cause ++ "\n"] ∧
    ∀ c, (launcherMain [p, A] procEnv sys).outcome ≠ Outcome.replaced c := by
  rw [launcherMain_one_arg, h]
  refine ⟨rfl, by simp [perrorLine], ?_⟩
  intro c hc
  simp at hc

theorem c3_exec_failure_witness :
    (launcherMain ["wrapper", "/mnt/config"] []
        (fun _ => ExecResult.failure "No such file or directory")).stderrLines
      = ["execl failed: No such file or directory\n"] :=
  (c3_exec_failure "wrapper" "/mnt/config" "No such file or directory" []
    (fun _ => ExecResult.failure "No such file or directory") rfl).2.1

/-- C4: when the exec attempt succeeds, the launcher's image is replaced
by exactly that call, none of the code after the `execl` runs (no `perror`
output), and the launcher's own code never returns a status: the observed
exit status belongs entirely to the replaced process. -/
theorem c4_success_no_return (p A : String)
    (procEnv : List (String × String)) (sys : ExecCall → ExecResult)
    (h : sys (theExecCall A) = ExecResult.success) :
    (launcherMain [p, A] procEnv sys).outcome
      = Outcome.replaced (theExecCall A) ∧
    (launcherMain [p, A] procEnv sys).stderrLines = [] ∧
    exitStatus (launcherMain [p, A] procEnv sys) = none := by
  rw [launcherMain_one_arg, h]
  exact ⟨rfl, rfl, rfl⟩

theorem c4_success_no_return_witness :
    (launcherMain ["wrapper", "/mnt/config"] []
        (fun _ => ExecResult.success)).stderrLines = [] :=
  (c4_success_no_return "wrapper" "/mnt/config" []
    (fun _ => ExecResult.success) rfl).2.1

/-- C5: the launcher's own code never returns status 0: on every path on
which it returns at all (wrong argument count, or failed exec), the status
is exactly 1. -/
theorem c5_never_zero (argv : List String) (procEnv : List (String × String))
    (sys : ExecCall → ExecResult) (s : Int)
    (h : (launcherMain argv procEnv sys).outcome = Outcome.exited s) :
    s = 1 := by
  unfold launcherMain at h
  split at h
  · simp at h
    omega
  · dsimp only at h
    split at h
    · simp at h
    · simp at h
      omega

theorem c5_never_zero_witness : (1 : Int) = 1 :=
  c5_never_zero [] [] (fun _ => ExecResult.success) 1 rfl

/-- C6: every run on which the launcher's own code returns writes exactly
one diagnostic line to stderr and nothing else; a successful hand-off
writes nothing; and no run writes any file. -/
theorem c6_single_diagnostic (argv : List String)
    (procEnv : List (String × String)) (sys : ExecCall → ExecResult) :
    ((exitStatus (launcherMain argv procEnv sys)).isSome →
      (launcherMain argv procEnv sys).stderrLines.length = 1) ∧
    (exitStatus (launcherMain argv procEnv sys) = none →
      (launcherMain argv procEnv sys).stderrLines = []) ∧
    (launcherMain argv procEnv sys).filesWritten = [] := by
  unfold launcherMain
  split
  · simp [exitStatus]
  · dsimp only
    split <;> simp [exitStatus]

theorem c6_single_diagnostic_witness :
    (launcherMain [] [] (fun _ => ExecResult.success)).stderrLines.length = 1 :=
  (c6_single_diagnostic [] [] (fun _ => ExecResult.success)).1 rfl

/-- C7: invoked with an empty argument list (`argc = 0`, so even the
program name is absent and `argv[0]` is the null pointer), the launcher
still takes the usage path safely: glibc's `fprintf` renders the null
`%s` argument as `(null)`, the single stderr line starts with `Usage:`,
and the exit status is 1. -/
theorem c7_zero_args (procEnv : List (String × String))
    (sys : ExecCall → ExecResult) :
    (launcherMain [] procEnv sys).outcome = Outcome.exited 1 ∧
    (launcherMain [] procEnv sys).stderrLines
      = ["Usage: (null) <remote_config_folder>\n"] ∧
    ∀ l ∈ (launcherMain [] procEnv sys).stderrLines, l.take 6 = "Usage:" := by
  refine ⟨rfl, rfl, ?_⟩
  intro l hl
  have hl2 : l = "Usage: (null) <remote_config_folder>\n" := by
    simpa [launcherMain, usageMessage, fmtStringArg] using hl
  rw [hl2]
  rfl

theorem c7_zero_args_witness :
    ("Usage: (null) <remote_config_folder>\n").take 6 = "Usage:" :=
  (c7_zero_args [] (fun _ => ExecResult.success)).2.2
    "Usage: (null) <remote_config_folder>\n" (by simp [launcherMain, usageMessage, fmtStringArg])

/-- C8: the forwarded argument is opaque: two invocations that differ only
in the content of the single argument, run against an operating system
whose answer does not depend on the call, take the same branch, produce the
same stderr output and the same own exit status, and their attempted exec
calls agree except in the final vector element. -/
theorem c8_argument_opaque (p A B : String)
    (procEnv : List (String × String)) (r : ExecResult) :
    exitStatus (launcherMain [p, A] procEnv (fun _ => r))
      = exitStatus (launcherMain [p, B] procEnv (fun _ => r)) ∧
    (launcherMain [p, A] procEnv (fun _ => r)).stderrLines
      = (launcherMain [p, B] procEnv (fun _ => r)).stderrLines ∧
    (launcherMain [p, A] procEnv (fun _ => r)).execAttempts.map stripLastArg
      = (launcherMain [p, B] procEnv (fun _ => r)).execAttempts.map
          stripLastArg := by
  rw [launcherMain_one_arg, launcherMain_one_arg]
  cases r <;> simp [exitStatus, theExecCall, stripLastArg]

/-- C9: the launcher introduces no environment variables: its environment
is unchanged on every path, and whenever the exec succeeds, the replaced
image receives exactly the caller's environment. -/
theorem c9_environment_inherited (argv : List String)
    (procEnv : List (String × String)) (sys : ExecCall → ExecResult) :
    (launcherMain argv procEnv sys).finalEnv = procEnv ∧
    ∀ e, (launcherMain argv procEnv sys).envPassedToExec = some e →
      e = procEnv := by
  unfold launcherMain
  split
  · simp
  · dsimp only
    split <;> simp

theorem c9_environment_inherited_witness :
    [("HOME", "/home/volumio")] = [("HOME", "/home/volumio")] :=
  (c9_environment_inherited ["wrapper", "x"] [("HOME", "/home/volumio")]
    (fun _ => ExecResult.success)).2 [("HOME", "/home/volumio")] rfl

/-- C10: every run of the launcher's own code terminates: being
straight-line code, it either returns status 1 or is consumed by the
process replacement, and the embedding is a total function, so there is
no path on which it runs forever. -/
theorem c10_terminates (argv : List String)
    (procEnv : List (String × String)) (sys : ExecCall → ExecResult) :
    (launcherMain argv procEnv sys).outcome = Outcome.exited 1 ∨
    ∃ call, (launcherMain argv procEnv sys).outcome
      = Outcome.replaced call := by
  unfold launcherMain
  split
  · left
    rfl
  · dsimp only
    split
    · right
      exact ⟨_, rfl⟩
    · left
      rfl

end RemoteConfigWrapper
